/-
  Verification of the session lifecycle and request-routing gateway of the
  clinicaltrialsgov-mcp-server repository, as a shallow embedding in Lean 4.

  The embedded functions follow `src/mcp-server/transports/http/httpTransport.ts`,
  `src/index.ts`, `src/tools/clinicaltrials-get-study.tool.ts` and
  `src/tools/clinicaltrials-find-eligible-studies.tool.ts`.  External
  collaborators (the SDK transport engine, the clinical-trials REST provider,
  the SessionStore and eligibility-checker modules that are not part of the
  analysed sources) are abstracted as parameters or, where their behaviour
  decides a property, modelled from the specification and marked as such.
-/
import Mathlib

namespace CtGov

/-! ## Session resolution (httpTransport.ts, `resolveTransportForRequest`)

The resolver consults `sessionStore.isValidForIdentity` and the
`sessionTransports` map.  Both are abstracted as function-valued fields: the
resolver only branches on their answers, exactly as the source does. -/

/-- Shallow embedding of the JSON-RPC payload as far as
`isInitializationPayload` inspects it: a falsy body, a single envelope (with
the SDK's `isInitializeRequest` verdict), or a batch of envelopes (one verdict
per message). -/
inductive RpcPayload where
  | nullish : RpcPayload
  | single (isInit : Bool) : RpcPayload
  | batch (msgs : List Bool) : RpcPayload
deriving Repr, DecidableEq

/-- Embedding of `isInitializationPayload` (httpTransport.ts lines 559-569):
falsy payloads are not initialization; arrays are initialization when some
element is an initialize request; otherwise the single envelope decides. -/
def isInitializationPayload : RpcPayload → Bool
  | .nullish => false
  | .single b => b
  | .batch msgs => msgs.any (fun b => b)

/-- The inputs `resolveTransportForRequest` closes over: the session mode, the
uppercased HTTP method, the optional `Mcp-Session-Id` header, the session
store's validity answer for the caller's identity, the transport registry
lookup, and the parsed body. -/
structure ResolveInput where
  isStatefulMode : Bool
  method : String
  providedSessionId : Option String
  isValidForIdentity : String → Bool
  sessionTransports : String → Option Nat
  payload : RpcPayload

/-- Which transport the resolver hands back: an existing registry entry, a
fresh stateless transport, or a fresh stateful transport. -/
inductive TransportChoice where
  | existing (t : Nat)
  | freshStateless
  | freshStateful
deriving Repr, DecidableEq

/-- The resolver's outcome: either a terminal HTTP response (status and error
message) or a `(transport, created)` pair. -/
inductive Resolution where
  | response (status : Nat) (error : String)
  | resolved (t : TransportChoice) (created : Bool)
deriving Repr, DecidableEq

/-- The resolver's result together with the session ids it passed to
`sessionStore.getOrCreate` (the "touch" side effect on the reuse path,
httpTransport.ts line 338). -/
structure ResolveOutcome where
  result : Resolution
  getOrCreateCalls : List String
deriving Repr, DecidableEq

/-- Embedding of `resolveTransportForRequest` (httpTransport.ts lines 287-367),
branch for branch:
stateless mode rejects DELETE with 405 and otherwise creates a fresh
transport; stateful mode with a session id asks the store, then the registry,
and reuses (touching the session) only when both accept; stateful mode without
a session id requires a POST carrying an initialization payload before it
creates a new session transport. -/
def resolveTransportForRequest (i : ResolveInput) : ResolveOutcome :=
  if !i.isStatefulMode then
    if i.method = "DELETE" then
      ⟨.response 405 "Session termination not supported in stateless mode", []⟩
    else
      ⟨.resolved .freshStateless true, []⟩
  else
    match i.providedSessionId with
    | some sid =>
      if !i.isValidForIdentity sid then
        ⟨.response 404 "Session not found or expired", []⟩
      else
        match i.sessionTransports sid with
        | none => ⟨.response 404 "Session not found or expired", []⟩
        | some t => ⟨.resolved (.existing t) false, [sid]⟩
    | none =>
      if i.method ≠ "POST" then
        ⟨.response 400 "Mcp-Session-Id header required for this request", []⟩
      else if !isInitializationPayload i.payload then
        ⟨.response 400 "Initialization request required to create a new MCP session.", []⟩
      else
        ⟨.resolved .freshStateful true, []⟩

/-! ## Origin guard (httpTransport.ts, `createHttpApp` lines 58-108) -/

/-- Embedding of the `allowedOriginsList` computation (lines 58-62): the
configured list when it is a non-empty array, otherwise `none`. -/
def allowedOriginsList (cfg : Option (List String)) : Option (List String) :=
  match cfg with
  | some l => if l.length > 0 then some l else none
  | none => none

/-- Embedding of `dnsProtectionEnabled` (lines 64-65). -/
def dnsProtectionEnabled (cfg : Option (List String)) : Bool :=
  match allowedOriginsList cfg with
  | some l => l.length > 0
  | none => false

/-- Embedding of the Origin-validation middleware (lines 88-108): given the
configured origin list and the request's `Origin` header, returns `some`
terminal 403 response when the request is rejected and `none` when processing
continues. -/
def originGuard (cfg : Option (List String)) (origin : Option String) :
    Option (Nat × String) :=
  match origin with
  | some o =>
    if dnsProtectionEnabled cfg then
      let isAllowed :=
        match allowedOriginsList cfg with
        | none => true
        | some l => l.contains o
      if !isAllowed then some (403, "Invalid origin. DNS rebinding protection.")
      else none
    else none
  | none => none

/-! ## C1: stateful requests presenting a session id -/

/-- C1: in stateful mode with a presented session id, a store rejection yields
404 "Session not found or expired"; store acceptance with no bound transport
also yields 404; store acceptance with a bound transport reuses that transport
with `created = false` and touches the session via `getOrCreate`. -/
theorem stateful_session_id_resolution (i : ResolveInput) (sid : String)
    (hMode : i.isStatefulMode = true)
    (hSid : i.providedSessionId = some sid) :
    (i.isValidForIdentity sid = false →
      resolveTransportForRequest i =
        ⟨.response 404 "Session not found or expired", []⟩) ∧
    (i.isValidForIdentity sid = true → i.sessionTransports sid = none →
      resolveTransportForRequest i =
        ⟨.response 404 "Session not found or expired", []⟩) ∧
    (∀ t : Nat, i.isValidForIdentity sid = true → i.sessionTransports sid = some t →
      resolveTransportForRequest i =
        ⟨.resolved (.existing t) false, [sid]⟩) := by
  refine ⟨?_, ?_, ?_⟩ <;>
    simp only [resolveTransportForRequest, hMode, hSid, Bool.not_true,
      Bool.false_eq_true, if_false]
  · intro hv; simp [hv]
  · intro hv ht; simp [hv, ht]
  · intro t hv ht; simp [hv, ht]

theorem stateful_session_id_resolution_witness :
    let i : ResolveInput :=
      { isStatefulMode := true, method := "POST", providedSessionId := some "abc",
        isValidForIdentity := fun _ => false, sessionTransports := fun _ => none,
        payload := .nullish }
    resolveTransportForRequest i =
      ⟨.response 404 "Session not found or expired", []⟩ :=
  (stateful_session_id_resolution _ "abc" rfl rfl).1 rfl

/-! ## C2: stateful requests with no session id -/

/-- C2: in stateful mode with no session id, a non-POST is rejected 400
requiring the session header; a POST whose body is not an initialization
payload is rejected 400 requiring initialization; a POST with an
initialization payload creates a fresh stateful transport with
`created = true`. -/
theorem stateful_no_session_id_resolution (i : ResolveInput)
    (hMode : i.isStatefulMode = true)
    (hSid : i.providedSessionId = none) :
    (i.method ≠ "POST" →
      resolveTransportForRequest i =
        ⟨.response 400 "Mcp-Session-Id header required for this request", []⟩) ∧
    (i.method = "POST" → isInitializationPayload i.payload = false →
      resolveTransportForRequest i =
        ⟨.response 400 "Initialization request required to create a new MCP session.", []⟩) ∧
    (i.method = "POST" → isInitializationPayload i.payload = true →
      resolveTransportForRequest i =
        ⟨.resolved .freshStateful true, []⟩) := by
  refine ⟨?_, ?_, ?_⟩ <;>
    simp only [resolveTransportForRequest, hMode, hSid, Bool.not_true,
      Bool.false_eq_true, if_false]
  · intro hm; simp [hm]
  · intro hm hp; simp [hm, hp]
  · intro hm hp; simp [hm, hp]

theorem stateful_no_session_id_resolution_witness :
    let i : ResolveInput :=
      { isStatefulMode := true, method := "POST", providedSessionId := none,
        isValidForIdentity := fun _ => false, sessionTransports := fun _ => none,
        payload := .single false }
    resolveTransportForRequest i =
      ⟨.response 400 "Initialization request required to create a new MCP session.", []⟩ :=
  (stateful_no_session_id_resolution _ rfl rfl).2.1 rfl rfl

/-! ## C3: stateless mode -/

/-- C3: in stateless mode DELETE is rejected 405 regardless of any session id,
every other method gets a fresh transport with `created = true`, and the
session store is never consulted: the outcome is independent of the store and
registry oracles and `getOrCreate` is never called. -/
theorem stateless_resolution (i : ResolveInput)
    (hMode : i.isStatefulMode = false) :
    (i.method = "DELETE" →
      resolveTransportForRequest i =
        ⟨.response 405 "Session termination not supported in stateless mode", []⟩) ∧
    (i.method ≠ "DELETE" →
      resolveTransportForRequest i = ⟨.resolved .freshStateless true, []⟩) ∧
    ((resolveTransportForRequest i).getOrCreateCalls = [] ∧
      ∀ (v : String → Bool) (b : String → Option Nat),
        resolveTransportForRequest { i with isValidForIdentity := v, sessionTransports := b } =
          resolveTransportForRequest i) := by
  refine ⟨fun hm => ?_, fun hm => ?_, ?_, fun v b => ?_⟩
  · simp [resolveTransportForRequest, hMode, hm]
  · simp [resolveTransportForRequest, hMode, hm]
  · by_cases hm : i.method = "DELETE" <;>
      simp [resolveTransportForRequest, hMode, hm]
  · simp [resolveTransportForRequest, hMode]

theorem stateless_resolution_witness :
    let i : ResolveInput :=
      { isStatefulMode := false, method := "DELETE", providedSessionId := none,
        isValidForIdentity := fun _ => false, sessionTransports := fun _ => none,
        payload := .nullish }
    resolveTransportForRequest i =
      ⟨.response 405 "Session termination not supported in stateless mode", []⟩ :=
  (stateless_resolution _ rfl).1 rfl

/-! ## C4: origin guard -/

/-- C4: the origin guard lets a request continue exactly when the configured
allow-list is empty or absent, the `Origin` header is absent, or the header is
a member of the list; otherwise it responds 403. -/
theorem origin_guard_pass_iff (cfg : Option (List String)) (origin : Option String) :
    (originGuard cfg origin = none ↔
      (allowedOriginsList cfg = none ∨ origin = none ∨
        ∃ o l, origin = some o ∧ allowedOriginsList cfg = some l ∧ o ∈ l)) ∧
    (originGuard cfg origin ≠ none →
      originGuard cfg origin = some (403, "Invalid origin. DNS rebinding protection.")) := by
  cases cfg with
  | none =>
    cases origin <;>
      simp [originGuard, allowedOriginsList, dnsProtectionEnabled]
  | some l0 =>
    by_cases h0 : l0.length > 0
    · cases origin with
      | none =>
        simp [originGuard, allowedOriginsList, dnsProtectionEnabled, h0]
      | some o =>
        by_cases hmem : o ∈ l0 <;>
          simp [originGuard, allowedOriginsList, dnsProtectionEnabled, h0, hmem,
            List.contains, List.elem_iff]
    · cases origin <;>
        simp [originGuard, allowedOriginsList, dnsProtectionEnabled, h0]

theorem origin_guard_pass_iff_witness :
    originGuard (some ["https://a.example"]) (some "https://evil.example") ≠ none ∧
    originGuard (some ["https://a.example"]) (some "https://evil.example") =
      some (403, "Invalid origin. DNS rebinding protection.") :=
  ⟨by decide,
    (origin_guard_pass_iff (some ["https://a.example"]) (some "https://evil.example")).2
      (by decide)⟩

/-! ## Port-bind retry launcher (httpTransport.ts, `startHttpServerWithRetry`)

`isPortInUse` probes a port with a throwaway listener; the `serve` call may
still fail in a race.  The code treats both outcomes identically (retry on
`port + 1` with `attempt + 1`), so a single `occupied : Nat → Bool` oracle
captures "the attempt on this port fails". -/

/-- Embedding of `tryBind` (httpTransport.ts lines 452-508): give up with a
fatal error once `attempt > maxRetries + 1`, otherwise retry on the next port
when the current one is occupied and resolve with the bound port when it is
free. -/
def tryBind (occupied : Nat → Bool) (maxRetries : Nat) (port : Nat)
    (attempt : Nat) : Except String Nat :=
  if attempt > maxRetries + 1 then
    .error ("Failed to bind to any port after " ++ toString maxRetries ++ " retries.")
  else if occupied port then
    tryBind occupied maxRetries (port + 1) (attempt + 1)
  else
    .ok port
termination_by maxRetries + 2 - attempt
decreasing_by omega

/-- Embedding of `startHttpServerWithRetry` (lines 435-510): the retry loop is
entered at the initial port with attempt counter 1. -/
def startHttpServerWithRetry (occupied : Nat → Bool) (initialPort : Nat)
    (maxRetries : Nat) : Except String Nat :=
  tryBind occupied maxRetries initialPort 1

/-- C5: the launcher probes sequentially — an occupied (or failed) attempt
advances to `port + 1`, a free port within budget binds, the loop fails
fatally exactly when the attempt counter exceeds `maxRetries + 1` — and in
the concrete scenario with `P`, `P+1`, `P+2` occupied and `P+3` free it binds
`P+3` when `maxRetries ≥ 3` and fails fatally when `maxRetries = 2`. -/
theorem port_retry_launcher (occupied : Nat → Bool) (P maxRetries : Nat)
    (h0 : occupied P = true) (h1 : occupied (P + 1) = true)
    (h2 : occupied (P + 2) = true) (h3 : occupied (P + 3) = false) :
    (∀ port attempt, attempt > maxRetries + 1 →
      tryBind occupied maxRetries port attempt =
        .error ("Failed to bind to any port after " ++ toString maxRetries ++ " retries.")) ∧
    (∀ port attempt, attempt ≤ maxRetries + 1 → occupied port = true →
      tryBind occupied maxRetries port attempt =
        tryBind occupied maxRetries (port + 1) (attempt + 1)) ∧
    (∀ port attempt, attempt ≤ maxRetries + 1 → occupied port = false →
      tryBind occupied maxRetries port attempt = .ok port) ∧
    (maxRetries ≥ 3 →
      startHttpServerWithRetry occupied P maxRetries = .ok (P + 3)) ∧
    (maxRetries = 2 →
      startHttpServerWithRetry occupied P maxRetries =
        .error ("Failed to bind to any port after " ++ toString maxRetries ++ " retries.")) := by
  have hfatal : ∀ port attempt, attempt > maxRetries + 1 →
      tryBind occupied maxRetries port attempt =
        .error ("Failed to bind to any port after " ++ toString maxRetries ++ " retries.") := by
    intro port attempt h
    rw [tryBind]
    simp [h]
  have hstep : ∀ port attempt, attempt ≤ maxRetries + 1 → occupied port = true →
      tryBind occupied maxRetries port attempt =
        tryBind occupied maxRetries (port + 1) (attempt + 1) := by
    intro port attempt h hocc
    rw [tryBind]
    have : ¬ attempt > maxRetries + 1 := by omega
    simp [this, hocc]
  have hfree : ∀ port attempt, attempt ≤ maxRetries + 1 → occupied port = false →
      tryBind occupied maxRetries port attempt = .ok port := by
    intro port attempt h hocc
    rw [tryBind]
    have : ¬ attempt > maxRetries + 1 := by omega
    simp [this, hocc]
  refine ⟨hfatal, hstep, hfree, ?_, ?_⟩
  · intro hge
    calc startHttpServerWithRetry occupied P maxRetries
        = tryBind occupied maxRetries (P + 1) 2 := hstep P 1 (by omega) h0
      _ = tryBind occupied maxRetries (P + 2) 3 := hstep (P + 1) 2 (by omega) h1
      _ = tryBind occupied maxRetries (P + 3) 4 := hstep (P + 2) 3 (by omega) h2
      _ = .ok (P + 3) := hfree (P + 3) 4 (by omega) h3
  · intro heq
    subst heq
    calc startHttpServerWithRetry occupied P 2
        = tryBind occupied 2 (P + 1) 2 := hstep P 1 (by omega) h0
      _ = tryBind occupied 2 (P + 2) 3 := hstep (P + 1) 2 (by omega) h1
      _ = tryBind occupied 2 (P + 3) 4 := hstep (P + 2) 3 (by omega) h2
      _ = .error ("Failed to bind to any port after " ++ toString 2 ++ " retries.") :=
          hfatal (P + 3) 4 (by omega)

theorem port_retry_launcher_witness :
    startHttpServerWithRetry (fun n => decide (n < 13)) 10 3 = .ok 13 :=
  (port_retry_launcher (fun n => decide (n < 13)) 10 3
    (by decide) (by decide) (by decide) (by decide)).2.2.2.1 (by omega)

/-! ## Stateful registries (Session Store and Transport Registry)

The two registries are mutated by the transport lifecycle callbacks
(`onsessioninitialized`, `onsessionclosed`, httpTransport.ts lines 219-237)
and by the reuse path of `resolveTransportForRequest` (lines 312-339).  The
SessionStore module itself is not among the analysed sources; its lazy
staleness eviction is modelled from the spec. -/

/-- Key insertion as performed by `Map.set` / `getOrCreate` on a key-set view:
idempotent, no duplicate keys. -/
def insertId (sid : String) (l : List String) : List String :=
  if sid ∈ l then l else sid :: l

/-- Key removal as performed by `Map.delete` / `terminate`: the key is gone
entirely afterwards. -/
def removeId (sid : String) (l : List String) : List String :=
  l.filter (fun x => x ≠ sid)

/-- The observable state of the stateful gateway: the Session Store's live
session ids and the `sessionTransports` registry's keys. -/
structure GatewayState where
  store : List String
  transports : List String
deriving Repr, DecidableEq

/-- Events that mutate the two registries in stateful mode:
`initSession` is the engine's `onsessioninitialized` callback (registers the
transport, then `getOrCreate`s the session, lines 219-227); `closeSession` is
`onsessionclosed` / explicit termination (deletes both, lines 228-237);
`request sid stale` is a request presenting `sid`, whose
`isValidForIdentity` check evicts a stale record. -/
inductive GatewayEvent where
  | initSession (sid : String)
  | closeSession (sid : String)
  | request (sid : String) (stale : Bool)
deriving Repr, DecidableEq

/-- One gateway transition.  The `request` case follows
`resolveTransportForRequest`: an unknown id changes nothing (404); a known but
stale id is evicted from the store — Modelled from the spec: §4.2 SessionStore
`isValidForIdentity` "fails ... if the record is stale (evict it as a side
effect)"; `sessionStore.ts` is not among the analysed sources — while a known
live id is touched (`getOrCreate` on an existing record, no key change). -/
def gatewayStep (s : GatewayState) : GatewayEvent → GatewayState
  | .initSession sid =>
    { store := insertId sid s.store, transports := insertId sid s.transports }
  | .closeSession sid =>
    { store := removeId sid s.store, transports := removeId sid s.transports }
  | .request sid stale =>
    if sid ∈ s.store then
      if stale then { s with store := removeId sid s.store } else s
    else s

/-- The state reached from the freshly constructed app (both registries empty,
httpTransport.ts lines 53-56) after a sequence of events. -/
def runGateway (events : List GatewayEvent) : GatewayState :=
  events.foldl gatewayStep ⟨[], []⟩

/-- The bijection property claimed for the two registries. -/
def registriesBijective (s : GatewayState) : Prop :=
  ∀ sid, sid ∈ s.store ↔ sid ∈ s.transports

theorem mem_insertId {x sid : String} {l : List String} :
    x ∈ insertId sid l ↔ x = sid ∨ x ∈ l := by
  by_cases h : sid ∈ l
  · simp only [insertId, if_pos h]
    constructor
    · exact fun hx => Or.inr hx
    · rintro (rfl | hx)
      · exact h
      · exact hx
  · simp [insertId, if_neg h]

theorem mem_removeId {x sid : String} {l : List String} :
    x ∈ removeId sid l ↔ x ∈ l ∧ x ≠ sid := by
  simp [removeId]

theorem gatewayStep_preserves_subset (s : GatewayState) (e : GatewayEvent)
    (h : ∀ sid ∈ s.store, sid ∈ s.transports) :
    ∀ sid ∈ (gatewayStep s e).store, sid ∈ (gatewayStep s e).transports := by
  cases e with
  | initSession a =>
    intro sid hs
    rw [gatewayStep] at hs ⊢
    rcases mem_insertId.mp hs with rfl | hmem
    · exact mem_insertId.mpr (Or.inl rfl)
    · exact mem_insertId.mpr (Or.inr (h sid hmem))
  | closeSession a =>
    intro sid hs
    rw [gatewayStep] at hs ⊢
    obtain ⟨hmem, hne⟩ := mem_removeId.mp hs
    exact mem_removeId.mpr ⟨h sid hmem, hne⟩
  | request a stale =>
    intro sid hs
    rw [gatewayStep] at hs ⊢
    by_cases ha : a ∈ s.store
    · by_cases hst : stale
      · simp only [if_pos ha, if_pos hst] at hs ⊢
        exact h sid (mem_removeId.mp hs).1
      · simp only [if_pos ha, if_neg hst] at hs ⊢
        exact h sid hs
    · simp only [if_neg ha] at hs ⊢
      exact h sid hs

/-! ## C6: the claimed bijection between the registries -/

/-- C6 counterexample: after a session is initialized and a later request
finds it stale, lazy eviction removes the Session Store record while the
Transport Registry still holds the transport — a request-observable state in
which the registries are not a bijection. -/
theorem registry_bijection_counterexample :
    "s" ∈ (runGateway [.initSession "s", .request "s" true]).transports ∧
    "s" ∉ (runGateway [.initSession "s", .request "s" true]).store ∧
    ¬ registriesBijective (runGateway [.initSession "s", .request "s" true]) := by
  refine ⟨by decide, by decide, fun hbij => ?_⟩
  exact absurd ((hbij "s").mpr (by decide)) (by decide)

/-- C6 amended: only one direction of the claimed bijection is an invariant —
at every request-observable point, every Session Store entry has a live
Transport Registry entry; a registry entry may outlive its store entry when
the session is lazily evicted for staleness. -/
theorem store_subset_transports (events : List GatewayEvent) (sid : String)
    (h : sid ∈ (runGateway events).store) :
    sid ∈ (runGateway events).transports := by
  suffices hinv : ∀ (es : List GatewayEvent) (s : GatewayState),
      (∀ x ∈ s.store, x ∈ s.transports) →
      ∀ x ∈ (es.foldl gatewayStep s).store, x ∈ (es.foldl gatewayStep s).transports by
    exact hinv events ⟨[], []⟩ (by intro x hx; cases hx) sid h
  intro es
  induction es with
  | nil => intro s hs x hx; exact hs x hx
  | cons e rest ih =>
    intro s hs x hx
    exact ih (gatewayStep s e) (gatewayStep_preserves_subset s e hs) x hx

theorem store_subset_transports_witness :
    "s" ∈ (runGateway [.initSession "s"]).transports :=
  store_subset_transports [.initSession "s"] "s" (by decide)

/-! ## C7: stateless mode leaves nothing behind -/

/-- The state a stateless-mode deployment can observe: the `sessionTransports`
registry (created empty at line 56 and written only by the stateful
`onsessioninitialized` callback, which `createStatelessTransport` does not
install) and the set of live transport-engine instances. -/
structure StatelessState where
  sessionTransports : List String
  openTransports : List Nat
deriving Repr, DecidableEq

/-- Key removal on the open-transport set (`transport.close()`). -/
def removeTransport (t : Nat) (l : List Nat) : List Nat :=
  l.filter (fun x => x ≠ t)

/-- One stateless request/response cycle (`handleRpc`, httpTransport.ts lines
369-398, with `resolveTransportForRequest` lines 292-306): DELETE is rejected
before any transport exists; every other method opens a fresh transport
(line 303), never registers it in `sessionTransports`, and closes it in the
`finally` block (lines 390-397). -/
def handleStatelessRequest (s : StatelessState) (method : String)
    (freshId : Nat) : StatelessState :=
  if method = "DELETE" then s
  else
    { s with openTransports := removeTransport freshId (freshId :: s.openTransports) }

/-- The state after a sequence of stateless requests, starting from the
freshly constructed app (empty registry, no live transports). -/
def runStateless (reqs : List (String × Nat)) : StatelessState :=
  reqs.foldl (fun s r => handleStatelessRequest s r.1 r.2) ⟨[], []⟩

/-- C7: in stateless mode nothing persists beyond a request/response cycle —
each request leaves the `sessionTransports` registry untouched and its fresh
transport closed, and after any sequence of requests both the registry and
the set of live transports are empty. -/
theorem stateless_no_persistence (reqs : List (String × Nat)) :
    (∀ (s : StatelessState) (method : String) (freshId : Nat),
      (handleStatelessRequest s method freshId).sessionTransports =
        s.sessionTransports ∧
      (freshId ∉ s.openTransports →
        freshId ∉ (handleStatelessRequest s method freshId).openTransports)) ∧
    (runStateless reqs).sessionTransports = [] ∧
    (runStateless reqs).openTransports = [] := by
  have hreg : ∀ (s : StatelessState) (method : String) (freshId : Nat),
      (handleStatelessRequest s method freshId).sessionTransports =
        s.sessionTransports := by
    intro s method freshId
    rw [handleStatelessRequest]
    by_cases h : method = "DELETE" <;> simp [h]
  have hclosed : ∀ (s : StatelessState) (method : String) (freshId : Nat),
      freshId ∉ s.openTransports →
      freshId ∉ (handleStatelessRequest s method freshId).openTransports := by
    intro s method freshId hfresh
    rw [handleStatelessRequest]
    by_cases h : method = "DELETE"
    · simpa [h] using hfresh
    · simp [h, removeTransport]
  have hrun : ∀ (rs : List (String × Nat)) (s : StatelessState),
      s.sessionTransports = [] → s.openTransports = [] →
      (rs.foldl (fun s r => handleStatelessRequest s r.1 r.2) s).sessionTransports = [] ∧
      (rs.foldl (fun s r => handleStatelessRequest s r.1 r.2) s).openTransports = [] := by
    intro rs
    induction rs with
    | nil => intro s h1 h2; exact ⟨h1, h2⟩
    | cons r rest ih =>
      intro s h1 h2
      apply ih
      · show (handleStatelessRequest s r.1 r.2).sessionTransports = []
        rw [hreg, h1]
      · show (handleStatelessRequest s r.1 r.2).openTransports = []
        by_cases h : r.1 = "DELETE"
        · simpa [handleStatelessRequest, h] using h2
        · simp [handleStatelessRequest, h, removeTransport, h2]
  exact ⟨fun s method freshId => ⟨hreg s method freshId, hclosed s method freshId⟩,
    hrun reqs ⟨[], []⟩ rfl rfl⟩

theorem stateless_no_persistence_witness :
    (runStateless [("POST", 7), ("GET", 8)]).sessionTransports = [] ∧
    (runStateless [("POST", 7), ("GET", 8)]).openTransports = [] ∧
    7 ∉ (handleStatelessRequest ⟨[], []⟩ "POST" 7).openTransports := by
  refine ⟨(stateless_no_persistence [("POST", 7), ("GET", 8)]).2.1,
    (stateless_no_persistence [("POST", 7), ("GET", 8)]).2.2,
    ((stateless_no_persistence []).1 ⟨[], []⟩ "POST" 7).2 (by decide)⟩

/-! ## Graceful shutdown coordinator (index.ts, `shutdown` lines 82-126)

The three awaited steps (stop the server transport when it is running, flush
OpenTelemetry, close the logger) are external effects; each is abstracted as
an `Except String Unit` result. -/

/-- The outcomes of the externally observable shutdown steps. -/
structure ShutdownEnv where
  serverRunning : Bool
  serverStop : Except String Unit
  otelShutdown : Except String Unit
  loggerClose : Except String Unit
deriving Repr

/-- Embedding of the `try`/`catch` body of `shutdown`: `server.stop()` runs
only when the server is running; the first step that throws lands in the
`catch` block and exits with code 1, otherwise the process exits with code 0
(index.ts lines 98-125). -/
def runShutdownBody (env : ShutdownEnv) : Nat :=
  match (if env.serverRunning then env.serverStop else .ok ()) with
  | .error _ => 1
  | .ok _ =>
    match env.otelShutdown with
    | .error _ => 1
    | .ok _ =>
      match env.loggerClose with
      | .error _ => 1
      | .ok _ => 0

/-- Embedding of one `shutdown(signal)` call: when `isShuttingDown` is already
set the call returns immediately without exiting (lines 83-85); otherwise the
flag is set and the body runs to a `process.exit` code. -/
def shutdownCall (env : ShutdownEnv) (isShuttingDown : Bool) :
    Bool × Option Nat :=
  if isShuttingDown then (isShuttingDown, none)
  else (true, some (runShutdownBody env))

/-- The exit codes produced by a sequence of termination signals or fatal
faults, each of which invokes `shutdown` (index.ts lines 216-233), threading
the `isShuttingDown` flag. -/
def shutdownSeq (env : ShutdownEnv) : List String → Bool → List Nat
  | [], _ => []
  | _ :: rest, flag =>
    let r := shutdownCall env flag
    (match r.2 with | some c => [c] | none => []) ++ shutdownSeq env rest r.1

theorem shutdownSeq_done (env : ShutdownEnv) (sigs : List String) :
    shutdownSeq env sigs true = [] := by
  induction sigs with
  | nil => rfl
  | cons s rest ih => simp [shutdownSeq, shutdownCall, ih]

/-! ## C8: shutdown idempotence and exit codes -/

/-- C8: for any non-empty sequence of termination signals or fatal faults only
the first `shutdown` invocation proceeds (exactly one exit code is produced;
all later calls return immediately), the exit code is 0 exactly when every
step completed cleanly, and it is 1 otherwise. -/
theorem shutdown_idempotent_exit_codes (env : ShutdownEnv)
    (signals : List String) (h : signals ≠ []) :
    shutdownSeq env signals false = [runShutdownBody env] ∧
    (∀ laterSigs : List String, shutdownSeq env laterSigs true = []) ∧
    (runShutdownBody env = 0 ↔
      (env.serverRunning = true → env.serverStop = .ok ()) ∧
      env.otelShutdown = .ok () ∧ env.loggerClose = .ok ()) ∧
    (runShutdownBody env ≠ 0 → runShutdownBody env = 1) := by
  refine ⟨?_, shutdownSeq_done env, ?_, ?_⟩
  · match signals, h with
    | s :: rest, _ =>
      simp [shutdownSeq, shutdownCall, shutdownSeq_done]
  · cases hr : env.serverRunning <;>
      rcases hs : env.serverStop with e | u <;>
      rcases ho : env.otelShutdown with e2 | u2 <;>
      rcases hl : env.loggerClose with e3 | u3 <;>
      simp [runShutdownBody, hr, hs, ho, hl]
  · cases hr : env.serverRunning <;>
      rcases hs : env.serverStop with e | u <;>
      rcases ho : env.otelShutdown with e2 | u2 <;>
      rcases hl : env.loggerClose with e3 | u3 <;>
      simp [runShutdownBody, hr, hs, ho, hl]

theorem shutdown_idempotent_exit_codes_witness :
    shutdownSeq
      { serverRunning := true, serverStop := .ok (), otelShutdown := .ok (),
        loggerClose := .ok () }
      ["SIGTERM", "SIGINT"] false = [runShutdownBody
      { serverRunning := true, serverStop := .ok (), otelShutdown := .ok (),
        loggerClose := .ok () }] :=
  (shutdown_idempotent_exit_codes _ ["SIGTERM", "SIGINT"] (by decide)).1

/-! ## ClinicalTrials.gov study data model (services/clinical-trials-gov/types)

Only the fields the two tools read are embedded; every field the upstream API
marks optional is an `Option`. -/

/-- An intervention as summarised by the get-study tool (name and type). -/
structure Intervention where
  name : Option String
  interventionType : Option String
deriving Repr, DecidableEq

structure IdentificationModule where
  nctId : Option String
  briefTitle : Option String
  officialTitle : Option String
deriving Repr, DecidableEq

structure DescriptionModule where
  briefSummary : Option String
deriving Repr, DecidableEq

structure StatusModule where
  overallStatus : Option String
deriving Repr, DecidableEq

structure ConditionsModule where
  conditions : Option (List String)
deriving Repr, DecidableEq

structure ArmsInterventionsModule where
  interventions : Option (List Intervention)
deriving Repr, DecidableEq

structure LeadSponsor where
  name : Option String
deriving Repr, DecidableEq

structure SponsorCollaboratorsModule where
  leadSponsor : Option LeadSponsor
deriving Repr, DecidableEq

structure EligibilityModule where
  minimumAge : Option String
  maximumAge : Option String
  sex : Option String
  healthyVolunteers : Option Bool
  eligibilityCriteria : Option String
deriving Repr, DecidableEq

structure ProtocolSection where
  identificationModule : Option IdentificationModule
  descriptionModule : Option DescriptionModule
  statusModule : Option StatusModule
  conditionsModule : Option ConditionsModule
  armsInterventionsModule : Option ArmsInterventionsModule
  sponsorCollaboratorsModule : Option SponsorCollaboratorsModule
  eligibilityModule : Option EligibilityModule
deriving Repr, DecidableEq

structure Study where
  protocolSection : Option ProtocolSection
deriving Repr, DecidableEq

/-! ## clinicaltrials_get_study (clinicaltrials-get-study.tool.ts) -/

/-- The concise summary shape built by `createStudySummary`. -/
structure StudySummary where
  nctId : Option String
  title : Option String
  briefSummary : Option String
  overallStatus : Option String
  conditions : Option (List String)
  interventions : Option (List Intervention)
  leadSponsor : Option String
deriving Repr, DecidableEq

/-- Embedding of `createStudySummary` (clinicaltrials-get-study.tool.ts lines
96-113): each field follows the optional-chaining path in the source. -/
def createStudySummary (study : Study) : StudySummary :=
  { nctId := (study.protocolSection.bind (·.identificationModule)).bind (·.nctId)
    title := (study.protocolSection.bind (·.identificationModule)).bind (·.officialTitle)
    briefSummary := (study.protocolSection.bind (·.descriptionModule)).bind (·.briefSummary)
    overallStatus := (study.protocolSection.bind (·.statusModule)).bind (·.overallStatus)
    conditions := (study.protocolSection.bind (·.conditionsModule)).bind (·.conditions)
    interventions :=
      ((study.protocolSection.bind (·.armsInterventionsModule)).bind (·.interventions)).map
        (·.map (fun i => ⟨i.name, i.interventionType⟩))
    leadSponsor :=
      ((study.protocolSection.bind (·.sponsorCollaboratorsModule)).bind
        (·.leadSponsor)).bind (·.name) }

/-- An entry of the `studies` output array: full study data or a summary. -/
inductive StudyOrSummary where
  | full (s : Study)
  | summary (s : StudySummary)
deriving Repr, DecidableEq

/-- One entry of the `errors` output array. -/
structure FetchError where
  nctId : String
  error : String
deriving Repr, DecidableEq

/-- The `studies` array built by the fetch loop (lines 139-167), determinised
in request order: one entry per NCT ID whose fetch succeeded, shaped by
`summaryOnly`. -/
def getStudySuccesses (fetch : String → Except String Study) (summaryOnly : Bool)
    (nctIds : List String) : List StudyOrSummary :=
  nctIds.filterMap (fun id =>
    match fetch id with
    | .ok st => some (if summaryOnly then .summary (createStudySummary st) else .full st)
    | .error _ => none)

/-- The `errors` array built by the fetch loop: one entry per NCT ID whose
fetch threw. -/
def getStudyFailures (fetch : String → Except String Study)
    (nctIds : List String) : List FetchError :=
  nctIds.filterMap (fun id =>
    match fetch id with
    | .ok _ => none
    | .error e => some ⟨id, e⟩)

/-- Embedding of `ClinicalTrialsGetStudyTool.runTool` (lines 124-185) over an
abstract provider `fetch` (each `provider.fetchStudy` call either returns a
study or throws).  The `Promise.all` loop pushes one element into `studies`
or `errors` per NCT ID; it is determinised in request order, which fixes the
order but not the multiset of entries.  When `studies` is empty and `errors`
non-empty the tool throws an `McpError` carrying the errors; otherwise it
returns the studies with the `errors` field set only when some fetch
failed. -/
def getStudyResult (fetch : String → Except String Study) (nctIds : List String)
    (summaryOnly : Bool) :
    Except (List FetchError) (List StudyOrSummary × Option (List FetchError)) :=
  let studies := getStudySuccesses fetch summaryOnly nctIds
  let errors := getStudyFailures fetch nctIds
  if studies.length = 0 ∧ errors.length > 0 then .error errors
  else .ok (studies, if errors.length > 0 then some errors else none)

theorem getStudy_length_split (fetch : String → Except String Study)
    (nctIds : List String) (summaryOnly : Bool) :
    (getStudySuccesses fetch summaryOnly nctIds).length +
      (getStudyFailures fetch nctIds).length = nctIds.length := by
  induction nctIds with
  | nil => rfl
  | cons id rest ih =>
    rcases hf : fetch id with e | st <;>
      simp [getStudySuccesses, getStudyFailures, List.filterMap_cons, hf] <;>
      simp [getStudySuccesses, getStudyFailures] at ih <;> omega

theorem getStudySuccesses_eq_nil_iff (fetch : String → Except String Study)
    (summaryOnly : Bool) (nctIds : List String) :
    getStudySuccesses fetch summaryOnly nctIds = [] ↔
      ∀ id ∈ nctIds, ∃ e, fetch id = .error e := by
  rw [getStudySuccesses, List.filterMap_eq_nil_iff]
  constructor
  · intro h id hid
    have := h id hid
    rcases hf : fetch id with e | st
    · exact ⟨e, rfl⟩
    · rw [hf] at this; cases this
  · intro h id hid
    obtain ⟨e, he⟩ := h id hid
    rw [he]

theorem getStudyFailures_pos_iff (fetch : String → Except String Study)
    (nctIds : List String) :
    0 < (getStudyFailures fetch nctIds).length ↔
      ∃ id ∈ nctIds, ∃ e, fetch id = .error e := by
  constructor
  · intro h
    have hne : getStudyFailures fetch nctIds ≠ [] := List.length_pos.mp h
    obtain ⟨x, hx⟩ := List.exists_mem_of_ne_nil _ hne
    obtain ⟨id, hid, hsome⟩ := List.mem_filterMap.mp hx
    rcases hf : fetch id with e | st
    · exact ⟨id, hid, e, hf⟩
    · rw [hf] at hsome; cases hsome
  · rintro ⟨id, hid, e, he⟩
    have hmem : (⟨id, e⟩ : FetchError) ∈ getStudyFailures fetch nctIds :=
      List.mem_filterMap.mpr ⟨id, hid, by rw [he]⟩
    exact List.length_pos.mpr (fun hnil => by rw [hnil] at hmem; cases hmem)

/-! ## C9: clinicaltrials_get_study error handling -/

/-- C9: the get-study tool throws exactly when every requested NCT ID failed
to fetch; otherwise it returns the successfully fetched studies (shaped by
`summaryOnly`), with the `errors` field present exactly when at least one
NCT ID failed, and every requested NCT ID accounted for in `studies` or
`errors` (the lengths add up to the number of requests, studies come from
successful fetches, error entries from failed ones). -/
theorem get_study_error_handling (fetch : String → Except String Study)
    (nctIds : List String) (summaryOnly : Bool) (h : nctIds ≠ []) :
    ((∃ errs, getStudyResult fetch nctIds summaryOnly = .error errs) ↔
      ∀ id ∈ nctIds, ∃ e, fetch id = .error e) ∧
    (∀ studies errs,
      getStudyResult fetch nctIds summaryOnly = .ok (studies, errs) →
      (errs.isSome = true ↔ ∃ id ∈ nctIds, ∃ e, fetch id = .error e) ∧
      studies.length + (errs.getD []).length = nctIds.length ∧
      (∀ x ∈ studies, ∃ id ∈ nctIds, ∃ st, fetch id = .ok st ∧
        x = if summaryOnly then .summary (createStudySummary st) else .full st) ∧
      (∀ fe ∈ errs.getD [], fe.nctId ∈ nctIds ∧
        fetch fe.nctId = .error fe.error)) := by
  constructor
  · constructor
    · rintro ⟨errs, herr⟩
      rw [getStudyResult] at herr
      by_cases hcond : (getStudySuccesses fetch summaryOnly nctIds).length = 0 ∧
          (getStudyFailures fetch nctIds).length > 0
      · exact (getStudySuccesses_eq_nil_iff fetch summaryOnly nctIds).mp
          (List.length_eq_zero.mp hcond.1)
      · simp only [if_neg hcond] at herr
        cases herr
    · intro hall
      have hS : getStudySuccesses fetch summaryOnly nctIds = [] :=
        (getStudySuccesses_eq_nil_iff fetch summaryOnly nctIds).mpr hall
      have hlen := getStudy_length_split fetch nctIds summaryOnly
      rw [hS] at hlen
      have hpos : (getStudyFailures fetch nctIds).length > 0 := by
        simp only [List.length_nil, Nat.zero_add] at hlen
        rw [hlen]
        exact List.length_pos.mpr h
      refine ⟨getStudyFailures fetch nctIds, ?_⟩
      rw [getStudyResult]
      rw [if_pos ⟨by rw [hS]; rfl, hpos⟩]
  · intro studies errs hok
    rw [getStudyResult] at hok
    by_cases hcond : (getStudySuccesses fetch summaryOnly nctIds).length = 0 ∧
        (getStudyFailures fetch nctIds).length > 0
    · rw [if_pos hcond] at hok
      cases hok
    · rw [if_neg hcond] at hok
      injection hok with hpair
      have hstudies : studies = getStudySuccesses fetch summaryOnly nctIds :=
        (congrArg Prod.fst hpair).symm
      have herrs : errs = if (getStudyFailures fetch nctIds).length > 0
          then some (getStudyFailures fetch nctIds) else none :=
        (congrArg Prod.snd hpair).symm
      have herrsD : errs.getD [] = getStudyFailures fetch nctIds := by
        rw [herrs]
        by_cases hE : (getStudyFailures fetch nctIds).length > 0
        · rw [if_pos hE]; rfl
        · rw [if_neg hE]
          have : (getStudyFailures fetch nctIds).length = 0 := by omega
          rw [List.length_eq_zero.mp this]
          rfl
      refine ⟨?_, ?_, ?_, ?_⟩
      · rw [herrs]
        by_cases hE : (getStudyFailures fetch nctIds).length > 0
        · rw [if_pos hE]
          simp only [Option.isSome_some, true_iff]
          exact (getStudyFailures_pos_iff fetch nctIds).mp hE
        · rw [if_neg hE]
          simp only [Option.isSome_none, Bool.false_eq_true, false_iff]
          intro hex
          exact hE ((getStudyFailures_pos_iff fetch nctIds).mpr hex)
      · rw [hstudies, herrsD]
        exact getStudy_length_split fetch nctIds summaryOnly
      · intro x hx
        rw [hstudies] at hx
        obtain ⟨id, hid, hsome⟩ := List.mem_filterMap.mp hx
        rcases hf : fetch id with e | st
        · rw [hf] at hsome; cases hsome
        · rw [hf] at hsome
          injection hsome with hxv
          exact ⟨id, hid, st, hf, hxv.symm⟩
      · intro fe hfe
        rw [herrsD] at hfe
        obtain ⟨id, hid, hsome⟩ := List.mem_filterMap.mp hfe
        rcases hf : fetch id with e | st
        · rw [hf] at hsome
          injection hsome with hfev
          subst hfev
          exact ⟨hid, hf⟩
        · rw [hf] at hsome; cases hsome

theorem get_study_error_handling_witness :
    [StudyOrSummary.full ⟨none⟩].length +
      ((some [(⟨"NCT00000002", "boom"⟩ : FetchError)]).getD []).length = 2 :=
  ((get_study_error_handling
      (fun id => if id = "NCT00000001" then .ok ⟨none⟩ else .error "boom")
      ["NCT00000001", "NCT00000002"] false (by decide)).2
    [StudyOrSummary.full ⟨none⟩] (some [⟨"NCT00000002", "boom"⟩]) (by rfl)).2.1

/-! ## clinicaltrials_find_eligible_studies
(clinicaltrials-find-eligible-studies.tool.ts)

The eligibility checkers, extractors and score calculator live in
`src/mcp-server/tools/utils/`, outside the analysed sources; the tool only
branches on their results, so they are abstracted as function-valued
fields. -/

/-- The `{ eligible, reason }` record returned by each eligibility checker. -/
structure CheckResult where
  eligible : Bool
  reason : String
deriving Repr, DecidableEq

/-- Patient location input (country required, the rest optional). -/
structure PatientLocation where
  country : String
  state : Option String
  city : Option String
  postalCode : Option String
deriving Repr, DecidableEq

/-- A study location as returned by `extractRelevantLocations`. -/
structure StudyLocation where
  facility : Option String
  city : Option String
  state : Option String
  country : Option String
  distance : Option Nat
deriving Repr, DecidableEq

structure StudyContact where
  name : Option String
  phone : Option String
  email : Option String
deriving Repr, DecidableEq

structure StudyDetails where
  phase : Option (List String)
  status : String
  enrollmentCount : Option Nat
  sponsor : Option String
deriving Repr, DecidableEq

/-- The `eligibilityHighlights` record built inline at lines 215-220. -/
structure EligibilityHighlights where
  ageRange : String
  sex : String
  healthyVolunteers : Option Bool
  criteriaSnippet : Option String
deriving Repr, DecidableEq

/-- One entry of the tool's `eligibleStudies` output array. -/
structure EligibleStudy where
  nctId : String
  title : String
  briefSummary : Option String
  matchScore : Nat
  matchReasons : List String
  eligibilityHighlights : EligibilityHighlights
  locations : List StudyLocation
  contact : Option StudyContact
  studyDetails : StudyDetails
deriving Repr, DecidableEq

/-- The helper functions imported from `@/mcp-server/tools/utils/*` (ageParser,
eligibilityCheckers, studyExtractors, studyRanking), abstracted: the tool only
branches on their outputs. -/
structure EligCheckers where
  checkAgeEligibility : Option String → Option String → Nat → CheckResult
  checkSexEligibility : Option String → String → CheckResult
  checkHealthyVolunteerEligibility : Option Bool → Bool → CheckResult
  calculateMatchScore : List CheckResult → Nat
  extractRelevantLocations : Study → PatientLocation → List StudyLocation
  extractContactInfo : Study → Option StudyContact
  extractStudyDetails : Study → StudyDetails

/-- The tool input fields `filterByEligibility` and the result assembly read. -/
structure FindEligibleInput where
  age : Nat
  sex : String
  healthyVolunteer : Bool
  location : PatientLocation
  maxResults : Nat
deriving Repr, DecidableEq

/-- The eligible-study record pushed at lines 209-224. -/
def mkEligibleStudy (C : EligCheckers) (study : Study) (em : EligibilityModule)
    (checks : List CheckResult) (reasons : List String)
    (locations : List StudyLocation) : EligibleStudy :=
  { nctId :=
      ((study.protocolSection.bind (·.identificationModule)).bind (·.nctId)).getD "Unknown"
    title :=
      ((study.protocolSection.bind (·.identificationModule)).bind (·.briefTitle)).getD "No title"
    briefSummary := (study.protocolSection.bind (·.descriptionModule)).bind (·.briefSummary)
    matchScore := C.calculateMatchScore checks
    matchReasons := reasons
    eligibilityHighlights :=
      { ageRange := em.minimumAge.getD "N/A" ++ " - " ++ em.maximumAge.getD "N/A"
        sex := em.sex.getD "All"
        healthyVolunteers := em.healthyVolunteers
        criteriaSnippet := em.eligibilityCriteria.map (fun s => s.take 300) }
    locations := locations
    contact := C.extractContactInfo study
    studyDetails := C.extractStudyDetails study }

/-- Embedding of `filterByEligibility` (lines 151-228): studies without an
eligibility module are skipped; the age, sex and healthy-volunteer checks each
`continue` on failure; studies with no relevant location are skipped; the
survivors are collected in input order. -/
def filterByEligibility (C : EligCheckers) (input : FindEligibleInput) :
    List Study → List EligibleStudy
  | [] => []
  | study :: rest =>
    match study.protocolSection.bind (·.eligibilityModule) with
    | none => filterByEligibility C input rest
    | some em =>
      let ageCheck := C.checkAgeEligibility em.minimumAge em.maximumAge input.age
      if !ageCheck.eligible then filterByEligibility C input rest
      else
        let sexCheck := C.checkSexEligibility em.sex input.sex
        if !sexCheck.eligible then filterByEligibility C input rest
        else
          let hvCheck :=
            C.checkHealthyVolunteerEligibility em.healthyVolunteers input.healthyVolunteer
          if !hvCheck.eligible then filterByEligibility C input rest
          else
            let locations := C.extractRelevantLocations study input.location
            if locations.isEmpty then filterByEligibility C input rest
            else
              mkEligibleStudy C study em [ageCheck, sexCheck, hvCheck]
                  [ageCheck.reason, sexCheck.reason, hvCheck.reason] locations ::
                filterByEligibility C input rest

/-- Modelled from the spec: `rankStudies` lives in
`src/mcp-server/tools/utils/studyRanking.ts`, which is not among the analysed
sources.  The tool's contract says it returns "a ranked list" ordered by
relevance; modelled as an insertion sort by `matchScore`, descending
(a permutation of its input). -/
def insertRanked (e : EligibleStudy) : List EligibleStudy → List EligibleStudy
  | [] => [e]
  | x :: xs =>
    if x.matchScore ≤ e.matchScore then e :: x :: xs else x :: insertRanked e xs

/-- Modelled from the spec: see `insertRanked`. -/
def rankStudies : List EligibleStudy → List EligibleStudy
  | [] => []
  | x :: xs => insertRanked x (rankStudies xs)

/-- The output fields of `runTool` the claim is about (lines 296-305). -/
structure FindEligibleOutput where
  eligibleStudies : List EligibleStudy
  totalMatches : Nat
deriving Repr, DecidableEq

/-- Embedding of the result assembly of
`ClinicalTrialsFindEligibleStudiesTool.runTool` (lines 275-305): filter the
fetched studies, rank them, truncate to `maxResults`, and report the total
number of eligible studies. -/
def findEligibleStudiesResult (C : EligCheckers) (input : FindEligibleInput)
    (studies : List Study) : FindEligibleOutput :=
  let eligibleStudies := filterByEligibility C input studies
  let rankedStudies := rankStudies eligibleStudies
  let finalStudies := rankedStudies.take input.maxResults
  { eligibleStudies := finalStudies, totalMatches := eligibleStudies.length }

theorem insertRanked_perm (e : EligibleStudy) (l : List EligibleStudy) :
    List.Perm (insertRanked e l) (e :: l) := by
  induction l with
  | nil => exact List.Perm.refl _
  | cons x xs ih =>
    rw [insertRanked]
    by_cases h : x.matchScore ≤ e.matchScore
    · rw [if_pos h]
    · rw [if_neg h]
      exact (ih.cons x).trans (List.Perm.swap e x xs)

theorem rankStudies_perm (l : List EligibleStudy) :
    List.Perm (rankStudies l) l := by
  induction l with
  | nil => exact List.Perm.refl _
  | cons x xs ih =>
    exact (insertRanked_perm x (rankStudies xs)).trans (ih.cons x)

/-- Every record produced by `filterByEligibility` comes from a study whose
age, sex and healthy-volunteer checks all passed and whose relevant-location
list is non-empty. -/
theorem mem_filterByEligibility (C : EligCheckers) (input : FindEligibleInput)
    (studies : List Study) (e : EligibleStudy)
    (he : e ∈ filterByEligibility C input studies) :
    ∃ study ∈ studies, ∃ em,
      study.protocolSection.bind (·.eligibilityModule) = some em ∧
      (C.checkAgeEligibility em.minimumAge em.maximumAge input.age).eligible = true ∧
      (C.checkSexEligibility em.sex input.sex).eligible = true ∧
      (C.checkHealthyVolunteerEligibility em.healthyVolunteers
        input.healthyVolunteer).eligible = true ∧
      e.locations = C.extractRelevantLocations study input.location ∧
      e.locations ≠ [] := by
  induction studies with
  | nil => cases he
  | cons study rest ih =>
    rw [filterByEligibility] at he
    rcases hem : study.protocolSection.bind (·.eligibilityModule) with _ | em
    · rw [hem] at he
      obtain ⟨st, hst, rest'⟩ := ih he
      exact ⟨st, List.mem_cons_of_mem _ hst, rest'⟩
    · rw [hem] at he
      by_cases hage :
          (C.checkAgeEligibility em.minimumAge em.maximumAge input.age).eligible
      · by_cases hsex : (C.checkSexEligibility em.sex input.sex).eligible
        · by_cases hhv :
              (C.checkHealthyVolunteerEligibility em.healthyVolunteers
                input.healthyVolunteer).eligible
          · by_cases hloc :
                (C.extractRelevantLocations study input.location).isEmpty
            · simp only [hage, hsex, hhv, hloc, Bool.not_true, Bool.false_eq_true,
                if_false, if_true] at he
              obtain ⟨st, hst, rest'⟩ := ih he
              exact ⟨st, List.mem_cons_of_mem _ hst, rest'⟩
            · simp only [hage, hsex, hhv, Bool.not_true, Bool.false_eq_true,
                if_false] at he
              rw [if_neg (by simpa using hloc)] at he
              rcases List.mem_cons.mp he with rfl | hrest
              · refine ⟨study, List.mem_cons_self _ _, em, hem, hage, hsex, hhv,
                  rfl, ?_⟩
                intro hnil
                have hnil' : C.extractRelevantLocations study input.location = [] := hnil
                simp [hnil'] at hloc
              · obtain ⟨st, hst, rest'⟩ := ih hrest
                exact ⟨st, List.mem_cons_of_mem _ hst, rest'⟩
          · simp only [hhv, Bool.not_false, if_true, hage, hsex, Bool.not_true,
              Bool.false_eq_true, if_false] at he
            obtain ⟨st, hst, rest'⟩ := ih he
            exact ⟨st, List.mem_cons_of_mem _ hst, rest'⟩
        · simp only [hsex, Bool.not_false, if_true, hage, Bool.not_true,
            Bool.false_eq_true, if_false] at he
          obtain ⟨st, hst, rest'⟩ := ih he
          exact ⟨st, List.mem_cons_of_mem _ hst, rest'⟩
      · simp only [hage, Bool.not_false, if_true] at he
        obtain ⟨st, hst, rest'⟩ := ih he
        exact ⟨st, List.mem_cons_of_mem _ hst, rest'⟩

/-! ## C10: clinicaltrials_find_eligible_studies soundness -/

/-- C10: every returned eligible study passed the age, sex and
healthy-volunteer checks and has at least one relevant location; the returned
list has at most `maxResults` entries; and `totalMatches` is the number of
studies that passed the filter, at least the number returned. -/
theorem find_eligible_studies_sound (C : EligCheckers)
    (input : FindEligibleInput) (studies : List Study) :
    (findEligibleStudiesResult C input studies).eligibleStudies.length ≤
      input.maxResults ∧
    (findEligibleStudiesResult C input studies).totalMatches =
      (filterByEligibility C input studies).length ∧
    (findEligibleStudiesResult C input studies).eligibleStudies.length ≤
      (findEligibleStudiesResult C input studies).totalMatches ∧
    (∀ e ∈ (findEligibleStudiesResult C input studies).eligibleStudies,
      ∃ study ∈ studies, ∃ em,
        study.protocolSection.bind (·.eligibilityModule) = some em ∧
        (C.checkAgeEligibility em.minimumAge em.maximumAge input.age).eligible = true ∧
        (C.checkSexEligibility em.sex input.sex).eligible = true ∧
        (C.checkHealthyVolunteerEligibility em.healthyVolunteers
          input.healthyVolunteer).eligible = true ∧
        e.locations = C.extractRelevantLocations study input.location ∧
        e.locations ≠ []) := by
  refine ⟨?_, rfl, ?_, ?_⟩
  · exact List.length_take_le _ _
  · show (List.take input.maxResults
        (rankStudies (filterByEligibility C input studies))).length ≤
      (filterByEligibility C input studies).length
    calc (List.take input.maxResults
          (rankStudies (filterByEligibility C input studies))).length
        ≤ (rankStudies (filterByEligibility C input studies)).length :=
          List.length_take_le' _ _
      _ = (filterByEligibility C input studies).length :=
          (rankStudies_perm _).length_eq
  · intro e he
    have hranked : e ∈ rankStudies (filterByEligibility C input studies) :=
      List.take_subset _ _ he
    have heligible : e ∈ filterByEligibility C input studies :=
      (rankStudies_perm _).mem_iff.mp hranked
    exact mem_filterByEligibility C input studies e heligible

theorem find_eligible_studies_sound_witness :
    (findEligibleStudiesResult
      { checkAgeEligibility := fun _ _ _ => ⟨true, "age ok"⟩,
        checkSexEligibility := fun _ _ => ⟨true, "sex ok"⟩,
        checkHealthyVolunteerEligibility := fun _ _ => ⟨true, "hv ok"⟩,
        calculateMatchScore := fun _ => 100,
        extractRelevantLocations := fun _ _ => [⟨none, none, none, none, none⟩],
        extractContactInfo := fun _ => none,
        extractStudyDetails := fun _ => ⟨none, "Recruiting", none, none⟩ }
      { age := 40, sex := "All", healthyVolunteer := false,
        location := ⟨"United States", none, none, none⟩, maxResults := 10 }
      [⟨some ⟨none, none, none, none, none, none,
        some ⟨none, none, none, none, none⟩⟩⟩]).eligibleStudies.length ≤ 10 :=
  (find_eligible_studies_sound _ _ _).1

end CtGov
